import Mathlib

/-!
Verification of the Weather Dashboard frontend logic: favorites store
(`useFavorites`), search debouncing (`SearchBar`), temperature conversion and
display (`WeatherCard`, `ForecastCard`), and the API client (`services/api`).
Numbers are modelled as exact rationals; JavaScript runtime services
(`JSON.parse`, `localStorage`, the axios HTTP transport) are modelled
explicitly where the frontend code relies on them.
-/

namespace Weather

/-- Data model from `types/index.ts`: current weather snapshot. -/
structure CurrentWeather where
  city_name : String
  country : String
  temperature : ℚ
  feels_like : ℚ
  description : String
  icon : String
  humidity : ℚ
  wind_speed : ℚ
  pressure : ℚ
  temp_min : ℚ
  temp_max : ℚ
deriving Repr, DecidableEq

/-- Data model from `types/index.ts`: one forecast day. -/
structure ForecastItem where
  date : String
  day_of_week : String
  temp_min : ℚ
  temp_max : ℚ
  description : String
  icon : String
  humidity : ℚ
  wind_speed : ℚ
deriving Repr, DecidableEq

/-- Data model from `types/index.ts`: five-day forecast. -/
structure Forecast where
  city_name : String
  country : String
  forecast : List ForecastItem
deriving Repr, DecidableEq

/-- Data model from `types/index.ts`: one city search result. -/
structure CitySearchResult where
  name : String
  country : String
  state : Option String
  lat : ℚ
  lon : ℚ
deriving Repr, DecidableEq

/-- Data model from `types/index.ts`: a favorite city record. -/
structure FavoriteCity where
  name : String
  country : String
  id : String
deriving Repr, DecidableEq

/-! ## Favorites store (`hooks/useFavorites.ts`) -/

/-- The fixed localStorage key, `STORAGE_KEY` in `useFavorites.ts`. -/
def STORAGE_KEY : String := "weather-favorites"

/-- The `addFavorite` updater from `useFavorites.ts`:
`prev.some((f) => f.id === city.id) ? prev : [...prev, city]`. -/
def addFavorite (city : FavoriteCity) (prev : List FavoriteCity) : List FavoriteCity :=
  if prev.any (fun f => f.id == city.id) then prev else prev ++ [city]

/-- The `removeFavorite` updater from `useFavorites.ts`:
`prev.filter((f) => f.id !== id)`. -/
def removeFavorite (id : String) (prev : List FavoriteCity) : List FavoriteCity :=
  prev.filter (fun f => f.id != id)

/-- The `isFavorite` query from `useFavorites.ts`:
`favorites.some((f) => f.id === id)`. -/
def isFavorite (id : String) (favorites : List FavoriteCity) : Bool :=
  favorites.any (fun f => f.id == id)

/-- The favorite id derivation from `WeatherCard.tsx` line 19:
`` `${weather.city_name}-${weather.country}` ``. -/
def favoriteId (weather : CurrentWeather) : String :=
  weather.city_name ++ "-" ++ weather.country

/-- The record built by `handleFavoriteToggle` in `WeatherCard.tsx`:
`\x7b id: favoriteId, name: weather.city_name, country: weather.country \x7d`. -/
def cardFavorite (weather : CurrentWeather) : FavoriteCity :=
  { id := favoriteId weather, name := weather.city_name, country := weather.country }

/-! ## Temperature conversion and display
(`WeatherCard.tsx` lines 13-24, `ForecastCard.tsx` lines 11-18) -/

/-- `convertToFahrenheit` from `WeatherCard.tsx` / `ForecastCard.tsx`:
`(celsius * 9) / 5 + 32`. -/
def convertToFahrenheit (celsius : ℚ) : ℚ :=
  celsius * 9 / 5 + 32

/-- The inverse of the affine Celsius-to-Fahrenheit map, per the spec's
round-trip property (spec section 8). -/
def celsiusOfFahrenheit (f : ℚ) : ℚ :=
  (f - 32) * 5 / 9

/-- Temperature unit type from `App.tsx`: `type TemperatureUnit = 'C' | 'F'`. -/
inductive TemperatureUnit where
  | C : TemperatureUnit
  | F : TemperatureUnit
deriving Repr, DecidableEq

/-- `displayTemp` from `WeatherCard.tsx` / `ForecastCard.tsx`:
`unit === 'F' ? convertToFahrenheit(temp) : temp`. -/
def displayTemp (unit : TemperatureUnit) (temp : ℚ) : ℚ :=
  if unit = TemperatureUnit.F then convertToFahrenheit temp else temp

/-- The slice of `App.tsx` state relevant to unit toggling: the fetched data
and the display unit (`currentWeather`, `forecast`, `unit`). -/
structure AppDisplayState where
  currentWeather : Option CurrentWeather
  forecast : Option Forecast
  unit : TemperatureUnit
deriving Repr, DecidableEq

/-- The `onUnitToggle` handler from `App.tsx` line 160:
`setUnit(unit === 'C' ? 'F' : 'C')`; no other state is touched. -/
def toggleUnit (st : AppDisplayState) : AppDisplayState :=
  { st with unit := if st.unit = TemperatureUnit.C then TemperatureUnit.F else TemperatureUnit.C }

/-! ## JSON values and `JSON.parse`
Modelled from the JavaScript runtime, which `useFavorites.ts` relies on:
hydration calls `JSON.parse` on the stored record with no try/catch. -/

/-- A JSON value as produced by `JSON.parse`. A number is kept exactly as
mantissa times a power of ten. -/
inductive Json where
  | null : Json
  | bool (b : Bool) : Json
  | num (mantissa : Int) (exponent : Int) : Json
  | str (s : String) : Json
  | arr (items : List Json) : Json
  | obj (fields : List (String × Json)) : Json

/-- JSON insignificant whitespace: space, tab, line feed, carriage return. -/
def isJsonWs (c : Char) : Bool :=
  c == ' ' || c == '\t' || c == '\n' || c == Char.ofNat 13

/-- Drop leading JSON whitespace. -/
def skipWs : List Char → List Char
  | [] => []
  | c :: cs => if isJsonWs c then skipWs cs else c :: cs

/-- Split off a maximal run of leading decimal digits. -/
def takeDigits : List Char → List Char × List Char
  | [] => ([], [])
  | c :: cs =>
    if c.isDigit then
      let p := takeDigits cs
      (c :: p.1, p.2)
    else ([], c :: cs)

/-- Numeric value of a digit run. -/
def digitsToNat (ds : List Char) : Nat :=
  ds.foldl (fun a c => a * 10 + (c.toNat - 48)) 0

/-- Value of a hexadecimal digit, if any. -/
def hexVal (c : Char) : Option Nat :=
  if '0' ≤ c && c ≤ '9' then some (c.toNat - 48)
  else if 'a' ≤ c && c ≤ 'f' then some (c.toNat - 87)
  else if 'A' ≤ c && c ≤ 'F' then some (c.toNat - 55)
  else none

/-- The optional fraction part of a JSON number: a dot must be followed by at
least one digit. Returns the fraction digits and the rest. -/
def parseFrac (cs : List Char) : Option (List Char × List Char) :=
  match cs with
  | '.' :: r =>
    let p := takeDigits r
    if p.1.isEmpty then none else some (p.1, p.2)
  | _ => some ([], cs)

/-- The optional exponent part of a JSON number. Returns its signed value and
the rest. -/
def parseExp (cs : List Char) : Option (Int × List Char) :=
  match cs with
  | c :: r =>
    if c == 'e' || c == 'E' then
      let sr : Int × List Char :=
        match r with
        | '+' :: r2 => (1, r2)
        | '-' :: r2 => (-1, r2)
        | _ => (1, r)
      let p := takeDigits sr.2
      if p.1.isEmpty then none else some (sr.1 * Int.ofNat (digitsToNat p.1), p.2)
    else some (0, cs)
  | [] => some (0, [])

/-- A JSON number: optional minus, integer part with no leading zero,
optional fraction, optional exponent. -/
def parseNum (cs : List Char) : Option (Json × List Char) :=
  let sp : Int × List Char :=
    match cs with
    | '-' :: r => (-1, r)
    | _ => (1, cs)
  let ip := takeDigits sp.2
  match ip.1 with
  | [] => none
  | d :: ds =>
    if d == '0' && ds.length > 0 then none
    else
      match parseFrac ip.2 with
      | none => none
      | some (fds, cs3) =>
        match parseExp cs3 with
        | none => none
        | some (e, cs4) =>
          some (Json.num (sp.1 * Int.ofNat (digitsToNat (d :: ds ++ fds)))
                  (e - Int.ofNat fds.length), cs4)

/-- The body of a JSON string after its opening quote: plain characters,
escapes, and `\u` hex escapes; unescaped control characters are rejected.
Fuel bounds the recursion; the initial fuel exceeds the input length. -/
def parseStrBody : Nat → List Char → String → Option (String × List Char)
  | 0, _, _ => none
  | _ + 1, [], _ => none
  | fuel + 1, c :: cs, acc =>
    if c == '"' then some (acc, cs)
    else if c == '\\' then
      match cs with
      | 'u' :: h1 :: h2 :: h3 :: h4 :: cs2 =>
        match hexVal h1, hexVal h2, hexVal h3, hexVal h4 with
        | some a, some b, some c2, some d =>
          parseStrBody fuel cs2 (acc.push (Char.ofNat (((a * 16 + b) * 16 + c2) * 16 + d)))
        | _, _, _, _ => none
      | e :: cs2 =>
        let esc : Option Char :=
          if e == '"' then some '"'
          else if e == '\\' then some '\\'
          else if e == '/' then some '/'
          else if e == 'b' then some (Char.ofNat 8)
          else if e == 'f' then some (Char.ofNat 12)
          else if e == 'n' then some '\n'
          else if e == 'r' then some (Char.ofNat 13)
          else if e == 't' then some '\t'
          else none
        match esc with
        | some ch => parseStrBody fuel cs2 (acc.push ch)
        | none => none
      | [] => none
    else if c.toNat < 32 then none
    else parseStrBody fuel cs (acc.push c)

mutual

/-- A JSON value with leading whitespace skipped. Fuel bounds the nesting
recursion; literal braces are tested by code point (123 and 125). -/
def parseVal (fuel : Nat) (cs : List Char) : Option (Json × List Char) :=
  match fuel with
  | 0 => none
  | f + 1 =>
    match skipWs cs with
    | 'n' :: 'u' :: 'l' :: 'l' :: r => some (Json.null, r)
    | 't' :: 'r' :: 'u' :: 'e' :: r => some (Json.bool true, r)
    | 'f' :: 'a' :: 'l' :: 's' :: 'e' :: r => some (Json.bool false, r)
    | '"' :: r =>
      match parseStrBody (r.length + 1) r "" with
      | some (s, r2) => some (Json.str s, r2)
      | none => none
    | '[' :: r =>
      match skipWs r with
      | ']' :: r2 => some (Json.arr [], r2)
      | r2 =>
        match parseVal f r2 with
        | some (v, r3) => parseArrRest f r3 [v]
        | none => none
    | c :: r =>
      if c.toNat == 123 then
        match skipWs r with
        | [] => none
        | c2 :: r2 =>
          if c2.toNat == 125 then some (Json.obj [], r2)
          else
            match parseField f (c2 :: r2) with
            | some (kv, r3) => parseObjRest f r3 [kv]
            | none => none
      else parseNum (c :: r)
    | [] => none

/-- Remaining elements of a JSON array after the first: comma-separated
values, closed by a bracket. -/
def parseArrRest (fuel : Nat) (cs : List Char) (acc : List Json) :
    Option (Json × List Char) :=
  match fuel with
  | 0 => none
  | f + 1 =>
    match skipWs cs with
    | ',' :: r =>
      match parseVal f r with
      | some (v, r2) => parseArrRest f r2 (acc ++ [v])
      | none => none
    | ']' :: r => some (Json.arr acc, r)
    | _ => none

/-- One `"key": value` member of a JSON object. -/
def parseField (fuel : Nat) (cs : List Char) : Option ((String × Json) × List Char) :=
  match fuel with
  | 0 => none
  | f + 1 =>
    match skipWs cs with
    | '"' :: r =>
      match parseStrBody (r.length + 1) r "" with
      | some (k, r2) =>
        match skipWs r2 with
        | ':' :: r3 =>
          match parseVal f r3 with
          | some (v, r4) => some ((k, v), r4)
          | none => none
        | _ => none
      | none => none
    | _ => none

/-- Remaining members of a JSON object after the first: comma-separated
members, closed by a brace (code point 125). -/
def parseObjRest (fuel : Nat) (cs : List Char) (acc : List (String × Json)) :
    Option (Json × List Char) :=
  match fuel with
  | 0 => none
  | f + 1 =>
    match skipWs cs with
    | ',' :: r =>
      match parseField f r with
      | some (kv, r2) => parseObjRest f r2 (acc ++ [kv])
      | none => none
    | c :: r => if c.toNat == 125 then some (Json.obj acc, r) else none
    | [] => none

end

/-- Modelled from the JavaScript runtime: `JSON.parse`. Parses one JSON value
with surrounding whitespace; a syntax error is a thrown `SyntaxError`,
modelled as `Except.error`. -/
def jsonParse (s : String) : Except String Json :=
  match parseVal (s.length + 1) s.data with
  | some (v, rest) =>
    if skipWs rest = [] then Except.ok v
    else Except.error "SyntaxError: unexpected non-whitespace character after JSON data"
  | none => Except.error "SyntaxError: unexpected token in JSON"

/-- The `useState` initializer of `useFavorites.ts` lines 206-209:
`const stored = localStorage.getItem(STORAGE_KEY); return stored ? JSON.parse(stored) : []`.
`getItem` yields `null` for a missing key, and both `null` and the empty
string are falsy, so those yield `[]`; otherwise the raw `JSON.parse` result
is returned, and a `SyntaxError` propagates to the caller: there is no
try/catch. -/
def useFavoritesInit (stored : Option String) : Except String Json :=
  match stored with
  | none => Except.ok (Json.arr [])
  | some s => if s.isEmpty then Except.ok (Json.arr []) else jsonParse s

/-! ## Browser storage and the persistence effect -/

/-- Modelled from the browser runtime: `localStorage` as a map from keys to
stored strings. -/
def Storage : Type := String → Option String

/-- Modelled from the browser runtime: `localStorage.setItem`. -/
def Storage.setItem (st : Storage) (key value : String) : Storage :=
  fun k => if k = key then some value else st k

/-- Modelled from the browser runtime: `localStorage.getItem`. -/
def Storage.getItem (st : Storage) (key : String) : Option String :=
  st key

/-- Hexadecimal digit with lowercase letters, as emitted by
`JSON.stringify` in `\u00xx` escapes. -/
def hexDigitLower (n : Nat) : Char :=
  if n < 10 then Char.ofNat (48 + n) else Char.ofNat (87 + n)

/-- Modelled from the JavaScript runtime: how `JSON.stringify` renders one
character inside a string literal. -/
def jsStringEscape (c : Char) : String :=
  if c == '"' then "\\\""
  else if c == '\\' then "\\\\"
  else if c == Char.ofNat 8 then "\\b"
  else if c == '\t' then "\\t"
  else if c == '\n' then "\\n"
  else if c == Char.ofNat 12 then "\\f"
  else if c == Char.ofNat 13 then "\\r"
  else if c.toNat < 32 then
    "\\u00" ++ String.singleton (hexDigitLower (c.toNat / 16))
      ++ String.singleton (hexDigitLower (c.toNat % 16))
  else String.singleton c

/-- Modelled from the JavaScript runtime: a `JSON.stringify` string literal. -/
def jsonQuote (s : String) : String :=
  "\"" ++ String.join (s.data.map jsStringEscape) ++ "\""

/-- `JSON.stringify` of one favorite record as built by `WeatherCard.tsx`
(object keys in creation order: id, name, country). -/
def stringifyFavorite (f : FavoriteCity) : String :=
  "\x7b" ++ jsonQuote "id" ++ ":" ++ jsonQuote f.id
    ++ "," ++ jsonQuote "name" ++ ":" ++ jsonQuote f.name
    ++ "," ++ jsonQuote "country" ++ ":" ++ jsonQuote f.country ++ "\x7d"

/-- `JSON.stringify(favorites)`: the persisted representation, a JSON array
of the favorite records in list order (`useFavorites.ts` line 212). -/
def stringifyFavorites (l : List FavoriteCity) : String :=
  "[" ++ String.intercalate "," (l.map stringifyFavorite) ++ "]"

/-- One mounted `useFavorites` instance together with the browser storage:
the `favorites` state and `localStorage`. -/
structure FavStore where
  favorites : List FavoriteCity
  storage : Storage

/-- A mutation requested on a `useFavorites` instance. -/
inductive FavOp where
  | add (city : FavoriteCity) : FavOp
  | remove (id : String) : FavOp

/-- One mutation of a `useFavorites` instance followed by its persistence
effect: the `useEffect` on `[favorites]` (`useFavorites.ts` lines 211-213)
re-runs whenever the state updater returns a new array and writes
`JSON.stringify(favorites)` under `STORAGE_KEY`. When `addFavorite` returns
the previous array itself (duplicate id), React bails out of the update and
the effect does not re-run; `removeFavorite` always returns a fresh array. -/
def favStep (st : FavStore) (op : FavOp) : FavStore :=
  match op with
  | .add city =>
    if st.favorites.any (fun f => f.id == city.id) then st
    else
      let l := addFavorite city st.favorites
      { favorites := l, storage := st.storage.setItem STORAGE_KEY (stringifyFavorites l) }
  | .remove id =>
    let l := removeFavorite id st.favorites
    { favorites := l, storage := st.storage.setItem STORAGE_KEY (stringifyFavorites l) }

/-- A sequence of mutations applied to a `useFavorites` instance. -/
def favRun (st : FavStore) (ops : List FavOp) : FavStore :=
  ops.foldl favStep st

/-- The list-level effect of one mutation, ignoring storage. -/
def applyFavOp (op : FavOp) (l : List FavoriteCity) : List FavoriteCity :=
  match op with
  | .add city => addFavorite city l
  | .remove id => removeFavorite id l

/-- The two mounted `useFavorites` instances the claim compares: the one
inside `WeatherCard` and the one inside `FavoritesList`. Each call of the
hook creates its own independent `useState`; the instances share only
`localStorage`, and nothing subscribes to storage changes. -/
structure TwoHookInstances where
  cardFavs : List FavoriteCity
  listFavs : List FavoriteCity
  storage : Storage

/-- `handleFavoriteToggle` adding a city through the `WeatherCard` instance
(`WeatherCard.tsx` lines 26-36): only that instance's state updates and
persists; the `FavoritesList` instance's state is untouched. -/
def addViaCard (st : TwoHookInstances) (city : FavoriteCity) : TwoHookInstances :=
  let s := favStep { favorites := st.cardFavs, storage := st.storage } (FavOp.add city)
  { st with cardFavs := s.favorites, storage := s.storage }

/-- Empty browser storage. -/
def emptyStorage : Storage := fun _ => none

/-- Both instances as hydrated from a missing storage record. -/
def twoHooksInit : TwoHookInstances :=
  { cardFavs := [], listFavs := [], storage := emptyStorage }

/-- A concrete favorite as `WeatherCard` would build it for London, GB. -/
def londonFav : FavoriteCity :=
  { name := "London", country := "GB", id := "London-GB" }

/-! ## Search controller (`SearchBar.tsx`) -/

/-- The fixed debounce delay from `SearchBar.tsx` line 45. -/
def debounceDelayMs : Nat := 300

/-- The `SearchBar` component state: the controlled query, result list,
dropdown flag and loading flag (`useState`s), the pending debounce timer
(`timeoutRef`, recorded with the query its scheduled callback captured),
the `searchCities` network calls issued so far, and the `console.error`
log. -/
structure SearchState where
  query : String
  results : List CitySearchResult
  isOpen : Bool
  isLoading : Bool
  pending : Option String
  calls : List String
  log : List String
deriving Repr, DecidableEq

/-- Initial `SearchBar` state per the `useState` initializers. -/
def searchInit : SearchState :=
  { query := "", results := [], isOpen := false, isLoading := false,
    pending := none, calls := [], log := [] }

/-- A keystroke changing the query to `s`, followed by the `[query]` effect
(`SearchBar.tsx` lines 21-52): any pending timer is cleared; if the new
query has fewer than 2 characters the results are cleared and the dropdown
closed with no timer scheduled; otherwise the loading flag is set and a
fresh 300 ms timer is scheduled capturing the new query. -/
def stepKey (st : SearchState) (s : String) : SearchState :=
  if s.length < 2 then
    { st with query := s, pending := none, results := [], isOpen := false }
  else
    { st with query := s, pending := some s, isLoading := true }

/-- The debounce timer elapsing, which happens exactly when the query it
captured stayed unedited for the full 300 ms delay: the callback issues the
`searchCities` network call for that query (`SearchBar.tsx` lines 34-36). -/
def stepFire (st : SearchState) : SearchState :=
  match st.pending with
  | none => st
  | some q => { st with pending := none, calls := st.calls ++ [q] }

/-- The awaited `searchCities` response arriving (`SearchBar.tsx` lines
36-44): on success the results are stored and the dropdown opened; on
failure the error is logged with `console.error` and the results cleared;
the `finally` clears the loading flag either way. -/
def stepResp (st : SearchState) (r : Except String (List CitySearchResult)) : SearchState :=
  match r with
  | .ok rs => { st with results := rs, isOpen := true, isLoading := false }
  | .error e =>
    { st with results := [], isLoading := false,
              log := st.log ++ ["Error searching cities: " ++ e] }

/-- The dropdown the user sees renders only when `isOpen` holds and the
result list is non-empty (`SearchBar.tsx` line 97). -/
def dropdownVisible (st : SearchState) : Bool :=
  st.isOpen && !st.results.isEmpty

/-- An event affecting the `SearchBar` state. -/
inductive SearchEvent where
  | key (s : String) : SearchEvent
  | fire : SearchEvent
  | resp (r : Except String (List CitySearchResult)) : SearchEvent

/-- One `SearchBar` transition. -/
def stepEvent (st : SearchState) : SearchEvent → SearchState
  | .key s => stepKey st s
  | .fire => stepFire st
  | .resp r => stepResp st r

/-- A whole interaction trace. -/
def runEvents (st : SearchState) (evs : List SearchEvent) : SearchState :=
  evs.foldl stepEvent st

/-! ## API client (`services/api.ts`) -/

/-- The axios instance configuration from `services/api.ts` line 11:
`timeout: 10000`, applied to every request made through `apiClient`. -/
def apiClientTimeoutMs : Nat := 10000

/-- Uppercase hexadecimal digit, as emitted by `encodeURIComponent`. -/
def hexDigitUpper (n : Nat) : Char :=
  if n < 10 then Char.ofNat (48 + n) else Char.ofNat (55 + n)

/-- One percent-encoded byte, e.g. `%2C`. -/
def percentByte (b : Nat) : String :=
  "%" ++ String.singleton (hexDigitUpper (b / 16))
    ++ String.singleton (hexDigitUpper (b % 16))

/-- The characters `encodeURIComponent` leaves intact: ASCII letters and
digits and `- _ . ! ~ *` and the apostrophe (code 39) and parentheses. -/
def uriUnreserved (c : Char) : Bool :=
  c.isAlpha || c.isDigit || c == '-' || c == '_' || c == '.' || c == '!'
    || c == '~' || c == '*' || c == Char.ofNat 39 || c == '(' || c == ')'

/-- Modelled from the JavaScript runtime: `encodeURIComponent`,
percent-encoding every UTF-8 byte of each reserved character. -/
def encodeURIComponent (s : String) : String :=
  String.join (s.data.map (fun c =>
    if uriUnreserved c then String.singleton c
    else String.join ((String.utf8EncodeChar c).map (fun b => percentByte b.toNat))))

/-- Modelled from the spec: the outcome of one HTTP exchange as seen by the
axios transport (an external library): either the network fails with no
response ever arriving, or a response with a status and an optional
provider-supplied detail message arrives after a given elapsed time. -/
inductive NetOutcome where
  | noResponse : NetOutcome
  | response (elapsedMs : Nat) (status : Nat) (detail : Option String) (body : Json) : NetOutcome

/-- Modelled from the spec: the client-side failure taxonomy. `TimeoutError`
is a kind distinct from `RequestError`; a `RequestError` carries the
upstream status when a response arrived, plus any provider detail message
(read as `err.response?.data?.detail` in `App.tsx` line 90). -/
inductive ApiError where
  | RequestError (status : Option Nat) (detail : Option String) : ApiError
  | TimeoutError : ApiError
deriving Repr, DecidableEq

/-- Modelled from the spec and the axios configuration in `services/api.ts`:
one GET through `apiClient`. A response taking longer than the configured
timeout is never delivered — the call fails with `TimeoutError`; a non-2xx
response fails with `RequestError` carrying its status and detail; a network
failure is a `RequestError` with no status. -/
def apiClientGet (_url : String) (timeoutMs : Nat) (net : NetOutcome) : Except ApiError Json :=
  match net with
  | .noResponse => Except.error (ApiError.RequestError none none)
  | .response elapsedMs status detail body =>
    if timeoutMs < elapsedMs then Except.error ApiError.TimeoutError
    else if 200 ≤ status ∧ status < 300 then Except.ok body
    else Except.error (ApiError.RequestError (some status) detail)

/-- `weatherApi.getCurrentWeather` from `services/api.ts` lines 21-24: a GET
on `/api/weather/` followed by the percent-encoded city, through
`apiClient`. -/
def getCurrentWeather (city : String) (net : NetOutcome) : Except ApiError Json :=
  apiClientGet ("/api/weather/" ++ encodeURIComponent city) apiClientTimeoutMs net

/-- `weatherApi.getForecast` from `services/api.ts` lines 29-32. -/
def getForecast (city : String) (net : NetOutcome) : Except ApiError Json :=
  apiClientGet ("/api/weather/" ++ encodeURIComponent city ++ "/forecast") apiClientTimeoutMs net

/-- `weatherApi.searchCities` from `services/api.ts` lines 37-42: axios
serializes `params: \x7b q \x7d` onto the query string percent-encoded. -/
def searchCities (query : String) (net : NetOutcome) : Except ApiError Json :=
  apiClientGet ("/api/cities/search?q=" ++ encodeURIComponent query) apiClientTimeoutMs net

/-- The state of one `useFavorites` instance right after a mount that found
no stored record: hydration yields `[]` and the mount run of the `[favorites]`
effect writes that initial list under the fixed key. -/
def favStoreInit : FavStore :=
  { favorites := [], storage := emptyStorage.setItem STORAGE_KEY (stringifyFavorites []) }

/-- Storage is in sync with a `useFavorites` instance when the fixed key
holds exactly the serialization of the instance's current list. -/
def storageSynced (st : FavStore) : Prop :=
  st.storage.getItem STORAGE_KEY = some (stringifyFavorites st.favorites)

/-- The ids of a favorites list, in order. -/
def favIds (l : List FavoriteCity) : List String := l.map FavoriteCity.id

/-- A sequence of store operations applied to the empty hydrated list. -/
def favOpsRun (ops : List FavOp) : List FavoriteCity :=
  ops.foldl (fun acc op => applyFavOp op acc) []

/-- Well-formedness the search controller maintains: every issued call has a
query of length at least 2, and a pending timer always captures a query of
length at least 2 that equals the current (latest) query. -/
def callsWF (st : SearchState) : Prop :=
  (∀ q ∈ st.calls, 2 ≤ q.length) ∧
  (∀ q, st.pending = some q → 2 ≤ q.length ∧ q = st.query)

/-! ## Theorems -/

/-- C7: the Celsius-to-Fahrenheit conversion used for display maps 0 to 32
and 100 to 212, and applying the inverse of the affine map recovers every
Celsius value exactly (temperatures modelled as exact rationals, so the
recovery is within any floating-point tolerance). -/
theorem convertToFahrenheit_fixed_points_and_round_trip :
    convertToFahrenheit 0 = 32 ∧ convertToFahrenheit 100 = 212 ∧
      ∀ c : ℚ, celsiusOfFahrenheit (convertToFahrenheit c) = c := by
  refine ⟨by norm_num [convertToFahrenheit], by norm_num [convertToFahrenheit], fun c => ?_⟩
  unfold celsiusOfFahrenheit convertToFahrenheit
  ring

/-- C10: toggling the display unit is a pure display transformation:
`displayTemp` is the identity for unit C and the Fahrenheit conversion for
unit F, and `toggleUnit` (the `onUnitToggle` handler) leaves the stored
current weather and forecast data unchanged. -/
theorem displayTemp_pure_and_toggle_frame :
    (∀ t : ℚ, displayTemp TemperatureUnit.C t = t) ∧
    (∀ t : ℚ, displayTemp TemperatureUnit.F t = convertToFahrenheit t) ∧
    (∀ st : AppDisplayState, (toggleUnit st).currentWeather = st.currentWeather ∧
      (toggleUnit st).forecast = st.forecast) :=
  ⟨fun _ => by simp [displayTemp], fun _ => by simp [displayTemp], fun _ => ⟨rfl, rfl⟩⟩

/-- C9: a failed search call is swallowed: the handler appends the error to
the console log, clears the result list, and the `finally` ends loading; the
rendered dropdown is closed (it requires a non-empty result list), and no
field surfacing anything to the user is touched — the query, the issued
calls, and the rest of the state stay as they were. -/
theorem search_failure_swallowed (st : SearchState) (e : String) :
    (stepResp st (Except.error e)).results = [] ∧
    dropdownVisible (stepResp st (Except.error e)) = false ∧
    (stepResp st (Except.error e)).isLoading = false ∧
    (stepResp st (Except.error e)).log = st.log ++ ["Error searching cities: " ++ e] ∧
    (stepResp st (Except.error e)).query = st.query ∧
    (stepResp st (Except.error e)).pending = st.pending ∧
    (stepResp st (Except.error e)).calls = st.calls := by
  refine ⟨rfl, ?_, rfl, rfl, rfl, rfl, rfl⟩
  simp [stepResp, dropdownVisible]

/-- C4 fails on the code: from the freshly hydrated state, adding London
through the `WeatherCard` hook instance makes `isFavorite` answer true
there, yet the `FavoritesList` hook instance — querying its own independent
state — still answers false, so the per-component instances are not
observationally equivalent to one shared store. -/
theorem favorites_not_shared_counterexample :
    isFavorite londonFav.id (addViaCard twoHooksInit londonFav).cardFavs = true ∧
    isFavorite londonFav.id (addViaCard twoHooksInit londonFav).listFavs = false :=
  ⟨rfl, rfl⟩

/-- C4 amended: each component's `useFavorites` call owns an independent
state hydrated from the shared storage at mount. After add(city) through the
WeatherCard instance, that instance reports the city as favorite, and when
the city was new its full updated list is persisted under the fixed key; but
the FavoritesList instance's state is unchanged, observing the addition only
after re-hydrating from storage (e.g. on remount). -/
theorem favorites_per_instance_visibility (st : TwoHookInstances) (city : FavoriteCity) :
    isFavorite city.id (addViaCard st city).cardFavs = true ∧
    (addViaCard st city).listFavs = st.listFavs ∧
    (isFavorite city.id st.cardFavs = false →
      (addViaCard st city).storage.getItem STORAGE_KEY
        = some (stringifyFavorites (addViaCard st city).cardFavs)) := by
  by_cases h : st.cardFavs.any (fun f => f.id == city.id)
  · refine ⟨?_, rfl, fun hc => ?_⟩
    · simp [addViaCard, favStep, h, isFavorite]
    · simp [isFavorite, h] at hc
  · refine ⟨?_, rfl, fun _ => ?_⟩
    · simp [addViaCard, favStep, h, isFavorite, addFavorite]
    · simp [addViaCard, favStep, h, Storage.getItem, Storage.setItem]

/-- C4 witness: the amended per-instance behavior at the concrete fresh
state and the London favorite. -/
theorem favorites_per_instance_visibility_witness :
    isFavorite londonFav.id (addViaCard twoHooksInit londonFav).cardFavs = true ∧
    (addViaCard twoHooksInit londonFav).storage.getItem STORAGE_KEY
      = some (stringifyFavorites (addViaCard twoHooksInit londonFav).cardFavs) :=
  ⟨(favorites_per_instance_visibility twoHooksInit londonFav).1,
   (favorites_per_instance_visibility twoHooksInit londonFav).2.2 (by decide)⟩

/-- C1 fails on the code: hydrating the corrupt stored record consisting of
a single opening brace (code point 123) does not yield an empty set — the
initializer has no try/catch, so `JSON.parse`'s SyntaxError propagates to
the caller, modelled as an error result. -/
theorem hydration_throws_counterexample :
    (useFavoritesInit (some "\x7b")).isOk = false :=
  rfl

/-- C1 amended: a missing record hydrates to the empty array (as does the
falsy empty string), and a deserializable record hydrates to its raw parse
result; but a corrupt (non-deserializable) record makes hydration throw the
deserialization error to the caller instead of yielding the empty set. -/
theorem hydration_missing_empty_corrupt_throws :
    useFavoritesInit none = Except.ok (Json.arr []) ∧
    useFavoritesInit (some "") = Except.ok (Json.arr []) ∧
    (∀ s v, s.isEmpty = false → jsonParse s = Except.ok v →
      useFavoritesInit (some s) = Except.ok v) ∧
    (∀ s, s.isEmpty = false → (jsonParse s).isOk = false →
      (useFavoritesInit (some s)).isOk = false) := by
  refine ⟨rfl, rfl, fun s v hs hp => ?_, fun s hs hp => ?_⟩
  · simp [useFavoritesInit, hs, hp]
  · simp [useFavoritesInit, hs, hp]

/-- C1 witness: the amended hydration behavior at concrete inputs — the
valid record `[]` parses and is returned raw, and the corrupt record `"\x7b"`
makes hydration fail. -/
theorem hydration_missing_empty_corrupt_throws_witness :
    useFavoritesInit (some "[]") = Except.ok (Json.arr []) ∧
    (useFavoritesInit (some "\x7b")).isOk = false :=
  ⟨hydration_missing_empty_corrupt_throws.2.2.1 "[]" (Json.arr []) rfl rfl,
   hydration_missing_empty_corrupt_throws.2.2.2 "\x7b" rfl rfl⟩

/-- Helper: `addFavorite` preserves duplicate-freedom of the ids. -/
theorem favIds_nodup_add (city : FavoriteCity) (l : List FavoriteCity)
    (h : (favIds l).Nodup) : (favIds (addFavorite city l)).Nodup := by
  unfold addFavorite
  by_cases hany : l.any (fun f => f.id == city.id)
  · simpa [hany] using h
  · rw [if_neg hany]
    have hnotmem : city.id ∉ favIds l := by
      intro hmem
      apply hany
      simp only [favIds, List.mem_map] at hmem
      obtain ⟨f, hf, hfid⟩ := hmem
      exact List.any_eq_true.mpr ⟨f, hf, by simp [hfid]⟩
    simp only [favIds, List.map_append, List.map_cons, List.map_nil]
    rw [List.nodup_append]
    refine ⟨h, List.nodup_singleton _, fun a ha hb => ?_⟩
    simp only [List.mem_singleton] at hb
    subst hb
    exact hnotmem ha

/-- Helper: `removeFavorite` preserves duplicate-freedom of the ids. -/
theorem favIds_nodup_remove (i : String) (l : List FavoriteCity)
    (h : (favIds l).Nodup) : (favIds (removeFavorite i l)).Nodup :=
  h.sublist ((List.filter_sublist l).map FavoriteCity.id)

/-- Helper: any operation sequence from a duplicate-free list keeps the ids
duplicate-free. -/
theorem favIds_nodup_foldl (ops : List FavOp) (l : List FavoriteCity)
    (h : (favIds l).Nodup) :
    (favIds (ops.foldl (fun acc op => applyFavOp op acc) l)).Nodup := by
  induction ops generalizing l with
  | nil => exact h
  | cons op ops ih =>
    rw [List.foldl_cons]
    cases op with
    | add c => exact ih _ (favIds_nodup_add c l h)
    | remove i => exact ih _ (favIds_nodup_remove i l h)

/-- C6: the id of the favorite built by the weather card is derived as
name-country, both operations preserve duplicate-freedom of the ids, and
every favorites state reachable from the empty hydrated state by store
operations has pairwise-distinct ids. -/
theorem favorites_id_uniqueness_invariant :
    (∀ w : CurrentWeather,
      (cardFavorite w).id = (cardFavorite w).name ++ "-" ++ (cardFavorite w).country) ∧
    (∀ l city, (favIds l).Nodup → (favIds (addFavorite city l)).Nodup) ∧
    (∀ l i, (favIds l).Nodup → (favIds (removeFavorite i l)).Nodup) ∧
    (∀ ops : List FavOp, (favIds (favOpsRun ops)).Nodup) :=
  ⟨fun _ => rfl, fun l c h => favIds_nodup_add c l h, fun l i h => favIds_nodup_remove i l h,
   fun ops => favIds_nodup_foldl ops [] (by simp [favIds])⟩

/-- C6 witness: preservation instantiated at concrete states. -/
theorem favorites_id_uniqueness_invariant_witness :
    (favIds (addFavorite londonFav [])).Nodup ∧
    (favIds (removeFavorite "Paris-FR" [londonFav])).Nodup :=
  ⟨favorites_id_uniqueness_invariant.2.1 [] londonFav (by simp [favIds]),
   favorites_id_uniqueness_invariant.2.2.1 [londonFav] "Paris-FR" (by simp [favIds])⟩

/-- C2: `addFavorite` returns the previous list unchanged when some favorite
already carries the city's id and appends the city otherwise; and in any
state carrying at most one entry with the city's id (every reachable state,
by the uniqueness invariant), adding the same city twice leaves exactly one
entry with that id. -/
theorem addFavorite_insert_if_new_idempotent
    (prev : List FavoriteCity) (city : FavoriteCity) :
    (isFavorite city.id prev = true → addFavorite city prev = prev) ∧
    (isFavorite city.id prev = false → addFavorite city prev = prev ++ [city]) ∧
    (prev.countP (fun f => f.id == city.id) ≤ 1 →
      (addFavorite city (addFavorite city prev)).countP (fun f => f.id == city.id) = 1) := by
  refine ⟨fun h => ?_, fun h => ?_, fun h => ?_⟩
  · unfold isFavorite at h
    simp [addFavorite, h]
  · unfold isFavorite at h
    simp [addFavorite, h]
  · by_cases hany : prev.any (fun f => f.id == city.id)
    · have hpos : 0 < prev.countP (fun f => f.id == city.id) :=
        List.countP_pos_iff.mpr (by simpa using List.any_eq_true.mp hany)
      have heq : addFavorite city prev = prev := by simp [addFavorite, hany]
      rw [heq, heq]
      omega
    · have hzero : prev.countP (fun f => f.id == city.id) = 0 := by
        rw [List.countP_eq_zero]
        intro f hf
        simp only [List.any_eq_true, not_exists] at hany
        push_neg at hany
        exact hany f hf
      have h1 : addFavorite city prev = prev ++ [city] := by simp [addFavorite, hany]
      have h2 : addFavorite city (prev ++ [city]) = prev ++ [city] := by
        have : (prev ++ [city]).any (fun f => f.id == city.id) = true := by
          simp [List.any_append]
        simp [addFavorite, this]
      rw [h1, h2, List.countP_append, hzero]
      simp

/-- C2 witness: adding London twice to the empty list yields exactly one
entry with its id, and each branch of the contract at concrete inputs. -/
theorem addFavorite_insert_if_new_idempotent_witness :
    addFavorite londonFav [londonFav] = [londonFav] ∧
    addFavorite londonFav [] = [] ++ [londonFav] ∧
    (addFavorite londonFav (addFavorite londonFav [])).countP
      (fun f => f.id == londonFav.id) = 1 :=
  ⟨(addFavorite_insert_if_new_idempotent [londonFav] londonFav).1 (by decide),
   (addFavorite_insert_if_new_idempotent [] londonFav).2.1 (by decide),
   (addFavorite_insert_if_new_idempotent [] londonFav).2.2 (by decide)⟩

/-- C5: every mutation synchronously persists the full current favorites
list, serialized as an ordered JSON array of records, under the fixed key:
the freshly mounted instance is in sync, every single mutation preserves
sync (a duplicate add changes neither the list nor storage), every sequence
of mutations preserves sync, and a mutation writes no other storage key. -/
theorem favorites_persist_every_mutation :
    storageSynced favStoreInit ∧
    (∀ st op, storageSynced st → storageSynced (favStep st op)) ∧
    (∀ st ops, storageSynced st → storageSynced (favRun st ops)) ∧
    (∀ st op k, k ≠ STORAGE_KEY →
      (favStep st op).storage.getItem k = st.storage.getItem k) := by
  have hstep : ∀ st op, storageSynced st → storageSynced (favStep st op) := by
    intro st op h
    cases op with
    | add city =>
      by_cases hany : st.favorites.any (fun f => f.id == city.id)
      · simpa [favStep, hany] using h
      · simp [favStep, hany, storageSynced, Storage.getItem, Storage.setItem]
    | remove i => simp [favStep, storageSynced, Storage.getItem, Storage.setItem]
  refine ⟨?_, hstep, ?_, ?_⟩
  · simp [storageSynced, favStoreInit, Storage.getItem, Storage.setItem]
  · intro st ops h
    induction ops generalizing st with
    | nil => exact h
    | cons op ops ih => exact ih _ (hstep st op h)
  · intro st op k hk
    cases op with
    | add city =>
      by_cases hany : st.favorites.any (fun f => f.id == city.id)
      · simp [favStep, hany]
      · simp [favStep, hany, Storage.getItem, Storage.setItem, hk]
    | remove i => simp [favStep, Storage.getItem, Storage.setItem, hk]

/-- C5 witness: one concrete add from the freshly mounted state stays in
sync and leaves an unrelated key untouched. -/
theorem favorites_persist_every_mutation_witness :
    storageSynced (favStep favStoreInit (FavOp.add londonFav)) ∧
    (favStep favStoreInit (FavOp.add londonFav)).storage.getItem "theme"
      = favStoreInit.storage.getItem "theme" :=
  ⟨favorites_persist_every_mutation.2.1 favStoreInit (FavOp.add londonFav)
      favorites_persist_every_mutation.1,
   favorites_persist_every_mutation.2.2.2 favStoreInit (FavOp.add londonFav) "theme" (by decide)⟩

/-- Helper: every search controller transition preserves `callsWF`. -/
theorem callsWF_step (st : SearchState) (ev : SearchEvent) (h : callsWF st) :
    callsWF (stepEvent st ev) := by
  obtain ⟨hc, hp⟩ := h
  cases ev with
  | key s =>
    by_cases hl : s.length < 2
    · refine ⟨?_, ?_⟩ <;> simp [stepEvent, stepKey, hl]
      exact hc
    · refine ⟨?_, ?_⟩ <;> simp [stepEvent, stepKey, hl]
      · exact hc
      · omega
  | fire =>
    cases hpend : st.pending with
    | none => simpa [stepEvent, stepFire, hpend] using ⟨hc, hp⟩
    | some q =>
      refine ⟨?_, ?_⟩ <;> simp [stepEvent, stepFire, hpend]
      intro q' hq'
      rcases hq' with hq' | hq'
      · exact hc q' hq'
      · subst hq'
        exact (hp q' hpend).1
  | resp r =>
    cases r with
    | ok rs => exact ⟨hc, hp⟩
    | error e => exact ⟨hc, hp⟩

/-- Helper: `callsWF` holds along any trace from a well-formed state. -/
theorem callsWF_run (evs : List SearchEvent) (st : SearchState) (h : callsWF st) :
    callsWF (runEvents st evs) := by
  induction evs generalizing st with
  | nil => exact h
  | cons ev evs ih =>
    rw [runEvents, List.foldl_cons]
    exact ih (stepEvent st ev) (callsWF_step st ev h)

/-- C3: debounced search. A keystroke making the query shorter than 2
characters clears the results, closes the dropdown and cancels any pending
timer, issuing no call; a keystroke making it at least 2 characters cancels
any pending timer and schedules a fresh timer capturing the new query,
issuing no call yet; the timer elapsing (the query stayed unedited for the
full 300 ms delay) issues exactly one call, for the pending query; along
any trace from the initial state every issued call has length at least 2
and a pending timer always captures the latest query; the delay is a fixed
300 ms; typing "London" then "London," before the delay elapses and letting
the timer fire issues exactly the single call "London,", and the query "a"
issues none. -/
theorem search_debounce_behavior :
    debounceDelayMs = 300 ∧
    (∀ st s, s.length < 2 → stepKey st s =
      { st with query := s, pending := none, results := [], isOpen := false }) ∧
    (∀ st s, 2 ≤ s.length → stepKey st s =
      { st with query := s, pending := some s, isLoading := true }) ∧
    (∀ st, (stepFire st).calls = st.calls ++ st.pending.toList) ∧
    (∀ evs, (∀ q ∈ (runEvents searchInit evs).calls, 2 ≤ q.length) ∧
      (∀ q, (runEvents searchInit evs).pending = some q →
        q = (runEvents searchInit evs).query)) ∧
    (runEvents searchInit
      [SearchEvent.key "London", SearchEvent.key "London,", SearchEvent.fire]).calls
      = ["London,"] ∧
    (runEvents searchInit [SearchEvent.key "a", SearchEvent.fire]).calls = [] := by
  have hwf : ∀ evs, callsWF (runEvents searchInit evs) := fun evs =>
    callsWF_run evs searchInit ⟨by simp [searchInit], by simp [searchInit]⟩
  refine ⟨rfl, fun st s hl => ?_, fun st s hl => ?_, fun st => ?_, fun evs => ?_, rfl, rfl⟩
  · simp [stepKey, hl]
  · simp [stepKey, Nat.not_lt.mpr hl]
  · cases hpend : st.pending with
    | none => simp [stepFire, hpend]
    | some q => simp [stepFire, hpend]
  · exact ⟨(hwf evs).1, fun q hq => ((hwf evs).2 q hq).2⟩

/-- C3 witness: the keystroke contract at concrete inputs — the query "a"
clears and cancels, the query "London" schedules a timer capturing it. -/
theorem search_debounce_behavior_witness :
    stepKey searchInit "a" =
      { searchInit with query := "a", pending := none, results := [], isOpen := false } ∧
    stepKey searchInit "London" =
      { searchInit with query := "London", pending := some "London", isLoading := true } :=
  ⟨search_debounce_behavior.2.1 searchInit "a" (by decide),
   search_debounce_behavior.2.2.1 searchInit "London" (by decide)⟩

/-- Helper: a non-2xx response delivered within the timeout is a
`RequestError` with the upstream status and detail. -/
theorem apiClientGet_non2xx (u : String) (t elapsed status : Nat)
    (detail : Option String) (body : Json)
    (h1 : elapsed ≤ t) (h2 : status < 200 ∨ 300 ≤ status) :
    apiClientGet u t (NetOutcome.response elapsed status detail body)
      = Except.error (ApiError.RequestError (some status) detail) := by
  have hdef : apiClientGet u t (NetOutcome.response elapsed status detail body)
      = if t < elapsed then Except.error ApiError.TimeoutError
        else if 200 ≤ status ∧ status < 300 then Except.ok body
        else Except.error (ApiError.RequestError (some status) detail) := rfl
  rw [hdef, if_neg (by omega), if_neg (by omega)]

/-- Helper: a response slower than the timeout is a `TimeoutError`. -/
theorem apiClientGet_timeout (u : String) (t elapsed status : Nat)
    (detail : Option String) (body : Json) (h : t < elapsed) :
    apiClientGet u t (NetOutcome.response elapsed status detail body)
      = Except.error ApiError.TimeoutError := by
  have hdef : apiClientGet u t (NetOutcome.response elapsed status detail body)
      = if t < elapsed then Except.error ApiError.TimeoutError
        else if 200 ≤ status ∧ status < 300 then Except.ok body
        else Except.error (ApiError.RequestError (some status) detail) := rfl
  rw [hdef, if_pos h]

/-- C8: every API client operation — current weather, forecast, city search —
fails with a `RequestError` carrying the upstream status and any provider
detail on a non-2xx response and with a status-less `RequestError` on
network failure; the fixed 10 s timeout configured on the shared axios
instance applies to each of them, a slower response failing with
`TimeoutError`, a kind distinct from every `RequestError`. -/
theorem apiClient_error_taxonomy :
    apiClientTimeoutMs = 10000 ∧
    (∀ (city query : String) (status detail body elapsed),
      elapsed ≤ apiClientTimeoutMs → (status < 200 ∨ 300 ≤ status) →
      getCurrentWeather city (NetOutcome.response elapsed status detail body)
          = Except.error (ApiError.RequestError (some status) detail) ∧
      getForecast city (NetOutcome.response elapsed status detail body)
          = Except.error (ApiError.RequestError (some status) detail) ∧
      searchCities query (NetOutcome.response elapsed status detail body)
          = Except.error (ApiError.RequestError (some status) detail)) ∧
    (∀ city query : String,
      getCurrentWeather city NetOutcome.noResponse
          = Except.error (ApiError.RequestError none none) ∧
      getForecast city NetOutcome.noResponse
          = Except.error (ApiError.RequestError none none) ∧
      searchCities query NetOutcome.noResponse
          = Except.error (ApiError.RequestError none none)) ∧
    (∀ (city query : String) (status detail body elapsed),
      apiClientTimeoutMs < elapsed →
      getCurrentWeather city (NetOutcome.response elapsed status detail body)
          = Except.error ApiError.TimeoutError ∧
      getForecast city (NetOutcome.response elapsed status detail body)
          = Except.error ApiError.TimeoutError ∧
      searchCities query (NetOutcome.response elapsed status detail body)
          = Except.error ApiError.TimeoutError) ∧
    (∀ s d, ApiError.TimeoutError ≠ ApiError.RequestError s d) := by
  refine ⟨rfl, fun city query status detail body elapsed h1 h2 => ?_,
    fun city query => ⟨rfl, rfl, rfl⟩,
    fun city query status detail body elapsed h => ?_,
    fun s d h => by cases h⟩
  · exact ⟨apiClientGet_non2xx _ _ _ _ _ _ h1 h2, apiClientGet_non2xx _ _ _ _ _ _ h1 h2,
      apiClientGet_non2xx _ _ _ _ _ _ h1 h2⟩
  · exact ⟨apiClientGet_timeout _ _ _ _ _ _ h, apiClientGet_timeout _ _ _ _ _ _ h,
      apiClientGet_timeout _ _ _ _ _ _ h⟩

/-- C8 witness: a 404 with a provider detail delivered in time is a
`RequestError` for each operation, and a response after 10001 ms is a
`TimeoutError`. -/
theorem apiClient_error_taxonomy_witness :
    (getCurrentWeather "London" (NetOutcome.response 50 404 (some "City not found") Json.null)
        = Except.error (ApiError.RequestError (some 404) (some "City not found")) ∧
      getForecast "London" (NetOutcome.response 50 404 (some "City not found") Json.null)
        = Except.error (ApiError.RequestError (some 404) (some "City not found")) ∧
      searchCities "Lon" (NetOutcome.response 50 404 (some "City not found") Json.null)
        = Except.error (ApiError.RequestError (some 404) (some "City not found"))) ∧
    getCurrentWeather "London" (NetOutcome.response 10001 200 none Json.null)
      = Except.error ApiError.TimeoutError :=
  ⟨apiClient_error_taxonomy.2.1 "London" "Lon" 404 (some "City not found") Json.null 50
      (by decide) (by omega),
   (apiClient_error_taxonomy.2.2.2.1 "London" "Lon" 200 none Json.null 10001 (by decide)).1⟩

end Weather
